import Mathlib

/-!
Verification of the value-object / typed-exception core of the
`code-snippets` repository, a shallow embedding of
`src/02-languages/002-typescript-value-object.ts` and
`src/02-languages/001-ts-base-exception.ts`.

JavaScript runtime values relevant to this core are modelled by the
inductive type `JSValue`: the absent value (`undefined`), `null`,
strings, numbers, booleans, `Date` instances, arrays, and plain objects
with own enumerable string-keyed fields.  JS numbers are modelled as
`Int`: none of the embedded functions performs arithmetic on a number,
they only branch on `typeof`, so the fractional part is irrelevant.
A `Date` carries a validity flag and a timestamp; `isEmpty` ignores both.
-/

inductive JSValue where
  | undef
  | null
  | str (s : String)
  | num (n : Int)
  | bool (b : Bool)
  | date (valid : Bool) (time : Int)
  | arr (elems : List JSValue)
  | obj (fields : List (String × JSValue))
deriving Repr

/--
Embedding of `isUndefined` (002-typescript-value-object.ts, lines 14-16):
`value === undefined || value === null || value === 'undefined'`.
-/
def isUndefined : JSValue → Bool
  | .undef => true
  | .null => true
  | .str s => s == "undefined"
  | _ => false

/--
Embedding of `isEmpty` (002-typescript-value-object.ts, lines 39-64).
The source is an ordered chain of checks; collapsing that chain per
constructor of `JSValue` gives the clauses below:

* `typeof value === 'number' || typeof value === 'boolean'` → `false`:
  the `num` and `bool` clauses.
* `isUndefined(value)` → `true`: the `undef` and `null` clauses and the
  `s == "undefined"` disjunct of the `str` clause.
* `value instanceof Date` → `false`: the `date` clause (reached only
  after the `isUndefined` check, which a `Date` never satisfies).
* `value instanceof Object && Object.keys(value).length === 0` → `true`:
  for a plain object, `Object.keys` lists its own enumerable fields, so
  this is `fields.length == 0`; for an array, `Object.keys` lists its
  indices, so this is `elems.length == 0`.  A primitive string is not
  `instanceof Object`, so strings skip this check.
* `Array.isArray(value) && value.every(isEmpty)` → `true`: the
  recursive disjunct of the `arr` clause (`allEmpty`, which mirrors
  `Array.prototype.every`'s left-to-right short-circuit evaluation).
* `value === ''` → `true`: the `s == ""` disjunct of the `str` clause.
* otherwise `false`: a plain object with at least one field, an array
  with a non-empty element, and any other string.
-/
def isEmpty : JSValue → Bool
  | .num _ => false
  | .bool _ => false
  | .undef => true
  | .null => true
  | .str s => s == "undefined" || s == ""
  | .date _ _ => false
  | .obj fields => fields.length == 0
  | .arr elems => elems.length == 0 || allEmpty elems
where
  /-- `value.every((item) => isEmpty(item))`: short-circuits on the first
  element whose `isEmpty` is `false` (lazily evaluated `&&`). -/
  allEmpty : List JSValue → Bool
  | [] => true
  | v :: rest => isEmpty v && allEmpty rest

/--
Embedding of `isPrimitive` (002-typescript-value-object.ts, lines 77-86):
strings, booleans, numbers, `undefined`, `null` and `Date` instances.
-/
def isPrimitive : JSValue → Bool
  | .str _ => true
  | .bool _ => true
  | .num _ => true
  | .undef => true
  | .null => true
  | .date _ _ => true
  | _ => false

/-!
The cause of an exception (001-ts-base-exception.ts) is an `Error`
object.  `toJSON` renders it with
`JSON.stringify(this.cause, Object.getOwnPropertyNames(this.cause))`,
which is sensitive to which properties are own and which are enumerable,
so the cause is modelled with explicit property descriptors: a list of
own properties and a list of inherited (prototype-chain) properties,
each carrying an enumerability flag.  Property values are modelled as
strings (an `Error`'s own properties — `message`, `stack` — are strings,
and only their selection, not their shape, is at issue).
-/

structure JSProp where
  name : String
  value : String
  enumerable : Bool
deriving Repr, DecidableEq

structure ErrObject where
  own : List JSProp
  inherited : List JSProp
deriving Repr, DecidableEq

/-- `Object.getOwnPropertyNames(o)`: the names of all own properties,
enumerable or not, in insertion order.  Inherited properties are not
listed. -/
def getOwnPropertyNames (o : ErrObject) : List String :=
  o.own.map (·.name)

/-- Property lookup as performed by `JSON.stringify`'s `Get(value, P)`:
an own property shadows an inherited one of the same name; an inherited
property is found through the prototype chain regardless of
enumerability. -/
def getProp (o : ErrObject) (k : String) : Option String :=
  match o.own.find? (·.name == k) with
  | some p => some p.value
  | none => (o.inherited.find? (·.name == k)).map (·.value)

/-- `JSON.stringify(o, keys)` with an array replacer: the replacer array
is an allow-list of property keys; each listed key present on the object
(via `Get`, hence regardless of enumerability) is serialized, in the
order of the list. -/
def stringifyWithKeys (keys : List String) (o : ErrObject) : String :=
  "\x7b" ++ String.intercalate ","
    (keys.filterMap fun k =>
      (getProp o k).map fun v => "\"" ++ k ++ "\":\"" ++ v ++ "\"")
    ++ "\x7d"

/-- The rendering of a supplied cause performed by `ExceptionBase.toJSON`
(001-ts-base-exception.ts, line 57):
`JSON.stringify(this.cause, Object.getOwnPropertyNames(this.cause))` —
the allow-list is the cause's own property names, enumerable or not. -/
def renderCause (o : ErrObject) : String :=
  stringifyWithKeys (getOwnPropertyNames o) o

/-- Modelled from the spec: the spec's §4.2 wording for the cause
rendering, "own-enumerable-properties only — inherited fields are
dropped".  Stated as a second definition, to be compared with
`renderCause`, the rendering the source actually performs: the allow-list
here keeps only the own properties whose enumerability flag is set. -/
def renderCauseOwnEnumerableSpec (o : ErrObject) : String :=
  stringifyWithKeys ((o.own.filter (·.enumerable)).map (·.name)) o

/-!
Embedding of `ExceptionBase` (001-ts-base-exception.ts, lines 25-61).
The class is abstract over the constant `code` fixed by each concrete
variant, so the model carries `code` as a field set by each variant's
constructor.  The constructor stores `message`, `metadata` and `cause`
verbatim (`readonly` parameter properties) and captures a stack trace
(`Error.captureStackTrace`); the stack text is a platform diagnostic
with no contract on its content, so the model threads it through as an
arbitrary string fixed at construction.  `metadata : unknown` being
absent (`undefined`) is modelled as `none`.
-/

structure ExceptionBase where
  code : String
  message : String
  metadata : Option JSValue
  cause : Option ErrObject
  stack : String
deriving Repr

/-- Embedding of `SerializedException` (001-ts-base-exception.ts, lines
4-10).  The optional fields (`stack?`, `cause?`, `metadata?`) are
`Option`s; a field whose value is the absent value (`undefined`) is not
emitted by JSON serialization of the record, which the model renders as
`none`. -/
structure SerializedException where
  message : String
  code : String
  stack : Option String
  cause : Option String
  metadata : Option JSValue
deriving Repr

/-- Embedding of `ExceptionBase.toJSON` (001-ts-base-exception.ts, lines
50-60).  `cause` has static type `Error | undefined`, so
`isUndefined(this.cause)` holds exactly when no cause was supplied
(`none`); otherwise the cause is rendered by `renderCause`.  `message`,
`code`, `stack` and `metadata` are copied through. -/
def ExceptionBase.toJSON (e : ExceptionBase) : SerializedException :=
  { message := e.message
    code := e.code
    stack := some e.stack
    cause := match e.cause with
      | none => none
      | some c => some (renderCause c)
    metadata := e.metadata }

/-- Embedding of `ArgumentNotProvidedException`
(001-ts-base-exception.ts, lines 69-71): an `ExceptionBase` whose `code`
is the declaration-time constant `'generic_argument_not_provided'`. -/
def ArgumentNotProvidedException (message : String) (metadata : Option JSValue)
    (cause : Option ErrObject) (stack : String) : ExceptionBase :=
  { code := "generic_argument_not_provided"
    message := message
    metadata := metadata
    cause := cause
    stack := stack }

/-- A thrown JavaScript error: either an instance of an `ExceptionBase`
subclass, or a plain `Error` (as thrown by e.g. the documented `Email`
validator) carrying only a message. -/
inductive JSError where
  | exc (e : ExceptionBase)
  | plain (message : String)
deriving Repr

/-!
Embedding of `ValueObject<T>` (002-typescript-value-object.ts, lines
126-211).  The conditional storage type `ValueObjectProperties<T>` —
`PrimitiveObjectProperties<T>` (a single-field `{ value }` carrier) when
`T` is primitive, `T` itself otherwise — is modelled as the tagged union
`StoredProps`, decided once in the constructor and never re-branched.
-/

inductive StoredProps where
  | wrapped (value : JSValue)
  | direct (value : JSValue)
deriving Repr

/-- A constructed `ValueObject` instance: `ctorName` models
`this.constructor.name` (the concrete subclass's name, used by
`toString` and by the emptiness failure message, and standing in for the
subclass's identity in `instanceof` checks), `properties` the stored
representation, `isPrimitive` the private flag of the same name. -/
structure VOInstance where
  ctorName : String
  properties : StoredProps
  isPrimitive : Bool
deriving Repr

/-- The message built by `ValueObject.checkIfEmpty`
(002-typescript-value-object.ts, line 207). -/
def emptyPropertyMessage (ctorName : String) : String :=
  "Property of value object (" ++ ctorName ++ ") cannot be empty"

/-- Embedding of `ValueObject.checkIfEmpty` (002-typescript-value-object.ts,
lines 203-210): when `isEmpty(properties)` holds, throw
`new ArgumentNotProvidedException(...)` (no metadata, no cause; the stack
capture is a platform diagnostic with no content contract, modelled as
the empty string). -/
def checkIfEmpty (ctorName : String) (properties : JSValue) :
    Except JSError Unit :=
  if isEmpty properties then
    Except.error (JSError.exc
      (ArgumentNotProvidedException (emptyPropertyMessage ctorName) none none ""))
  else
    Except.ok ()

/-- Embedding of the `ValueObject` constructor
(002-typescript-value-object.ts, lines 140-151), parameterised — as the
abstract class is — by the concrete subclass's name and its `validate`
hook (an abstract method that either returns or throws).  In source
order: `this.checkIfEmpty(properties)`, then `this.validate(properties)`,
then the storage branch on `isPrimitive(properties)`: a primitive is
wrapped in the single-field carrier and `isPrimitive` is set, a
structured value is stored as-is. -/
def mkValueObject (ctorName : String)
    (validate : JSValue → Except JSError Unit)
    (properties : JSValue) : Except JSError VOInstance := do
  checkIfEmpty ctorName properties
  validate properties
  if isPrimitive properties then
    Except.ok { ctorName := ctorName
                properties := StoredProps.wrapped properties
                isPrimitive := true }
  else
    Except.ok { ctorName := ctorName
                properties := StoredProps.direct properties
                isPrimitive := false }

/-- Embedding of `ValueObject.isValueObject`
(002-typescript-value-object.ts, lines 159-161):
`object instanceof ValueObject`.  `instanceof` walks the candidate's
prototype chain looking for `ValueObject.prototype`; only objects
created by a `ValueObject` subclass constructor have it there.  The
candidate universe `Candidate` (below) therefore distinguishes, by
construction tag, instances produced by `mkValueObject` from every other
runtime value — in particular from plain objects, whatever fields they
carry. -/
inductive Candidate where
  | voInst (inst : VOInstance)
  | nullVal
  | undefVal
  | plainObj (fields : List (String × JSValue))
  | primVal (v : JSValue)
deriving Repr

def isValueObject : Candidate → Bool
  | .voInst _ => true
  | _ => false

/-- Projection of the stored representation back to the raw value: for a
primitive-wrapped instance this is `this.properties.value` (as in the
documented `Email.getValue`), for a structured instance the stored
object itself. -/
def VOInstance.getValue (vo : VOInstance) : JSValue :=
  match vo.properties with
  | .wrapped v => v
  | .direct v => v

/-- JavaScript strict equality `===` restricted to the values the
embedded code compares: value equality on primitives; `Date`s, arrays
and objects compare by reference, and two separately materialised
references are distinct, which the model renders conservatively as
`false` (the documented `Email` subclass only ever compares strings, so
this clause is not exercised by the theorems below). -/
def strictEqual : JSValue → JSValue → Bool
  | .str a, .str b => a == b
  | .num a, .num b => a == b
  | .bool a, .bool b => a == b
  | .undef, .undef => true
  | .null, .null => true
  | _, _ => false

/-- Embedding of the `Email` subclass's `validate` from the documentation
example (002-typescript-value-object.ts, lines 110-124):
`if (!value.includes('@')) throw new Error('Invalid email address')`.
`value.includes('@')` — membership of a single character — is the
character list containment `s.data.contains '@'`.  The parameter has
static type `string`; a non-string can only reach the hook through an
untyped call, modelled as the same throw. -/
def emailValidate : JSValue → Except JSError Unit
  | .str s =>
    if s.data.contains '@' then Except.ok ()
    else Except.error (JSError.plain "Invalid email address")
  | _ => Except.error (JSError.plain "Invalid email address")

/-- Embedding of the `Email` subclass's `equals` from the documentation
example (002-typescript-value-object.ts, line 122):
`other instanceof Email && this.getValue() === other.getValue()`.
The optional parameter being absent (`undefined`) is `none`;
`undefined instanceof Email` is `false`, so `&&` short-circuits and the
right operand is never evaluated — `equals(undefined)` cannot throw. -/
def emailEquals (self : VOInstance) (other : Option VOInstance) : Bool :=
  match other with
  | none => false
  | some o => o.ctorName == "Email" && strictEqual self.getValue o.getValue

/-- The text form `.value.toString()` takes on the primitives a
constructed value object can wrap (`null` and `undefined` never survive
the emptiness check, so `.toString()` is never invoked on them; a
`Date`'s text form is platform- and locale-dependent, modelled as a
fixed rendering of its timestamp — §6 of the spec marks the whole string
as unstable and not to be parsed). -/
def primToString : JSValue → String
  | .str s => s
  | .bool b => if b then "true" else "false"
  | .num n => toString n
  | .date _ t => "Date(" ++ toString t ++ ")"
  | .undef => ""
  | .null => ""
  | .arr _ => ""
  | .obj _ => ""

mutual

/-- `JSON.stringify` on the stored structured value, as used by
`ValueObject.toString` (002-typescript-value-object.ts, line 194).
A constructed structured value object stores an object or array of
data fields; the clauses for the remaining constructors follow
`JSON.stringify`'s treatment of them inside a composite (`undefined`
inside an array becomes `null`; a `Date` stringifies through its ISO
text form, modelled as the fixed rendering of its timestamp). -/
def jsonStringify : JSValue → String
  | .undef => "null"
  | .null => "null"
  | .str s => "\"" ++ s ++ "\""
  | .num n => toString n
  | .bool b => if b then "true" else "false"
  | .date _ t => "\"Date(" ++ toString t ++ ")\""
  | .arr elems => "[" ++ jsonStringifyList elems ++ "]"
  | .obj fields => "\x7b" ++ jsonStringifyFields fields ++ "\x7d"

def jsonStringifyList : List JSValue → String
  | [] => ""
  | [v] => jsonStringify v
  | v :: rest => jsonStringify v ++ "," ++ jsonStringifyList rest

def jsonStringifyFields : List (String × JSValue) → String
  | [] => ""
  | [(k, v)] => "\"" ++ k ++ "\":" ++ jsonStringify v
  | (k, v) :: rest =>
    "\"" ++ k ++ "\":" ++ jsonStringify v ++ "," ++ jsonStringifyFields rest

end

/-- Embedding of `ValueObject.toString` (002-typescript-value-object.ts,
lines 189-195): `"<ConcreteTypeName> [<value>]"`, where `<value>` is the
wrapped primitive's own text form when `this.isPrimitive` is set, and
`JSON.stringify(this.properties)` otherwise. -/
def VOInstance.toString (vo : VOInstance) : String :=
  if vo.isPrimitive then
    vo.ctorName ++ " [" ++ primToString vo.getValue ++ "]"
  else
    vo.ctorName ++ " [" ++ jsonStringify vo.getValue ++ "]"

/-- A `validate` hook that accepts everything — the trivial implementer
hook, used to exercise the constructor on structured values. -/
def alwaysValid : JSValue → Except JSError Unit :=
  fun _ => Except.ok ()

/-- C1: for every input that is empty per the emptiness rule, the
value-object constructor throws an `ArgumentNotProvidedException` whose
`code` is `'generic_argument_not_provided'` — synchronously, whatever
the subclass's `validate` hook — and no instance is produced. -/
theorem c1_empty_input_raises_argument_not_provided
    (ctorName : String) (validate : JSValue → Except JSError Unit)
    (v : JSValue) (h : isEmpty v = true) :
    mkValueObject ctorName validate v =
      Except.error (JSError.exc
        (ArgumentNotProvidedException (emptyPropertyMessage ctorName) none none ""))
    ∧ (ArgumentNotProvidedException (emptyPropertyMessage ctorName) none none "").code
        = "generic_argument_not_provided"
    ∧ ∀ inst, mkValueObject ctorName validate v ≠ Except.ok inst := by
  have hmk : mkValueObject ctorName validate v =
      Except.error (JSError.exc
        (ArgumentNotProvidedException (emptyPropertyMessage ctorName) none none "")) := by
    simp [mkValueObject, checkIfEmpty, h, Bind.bind, Except.bind]
  exact ⟨hmk, rfl, fun inst hok => by rw [hmk] at hok; exact Except.noConfusion hok⟩

/-- Witness for C1: the empty string is empty, and constructing an
`Email` from it fails with the empty-argument exception. -/
theorem c1_witness :
    mkValueObject "Email" emailValidate (JSValue.str "") =
      Except.error (JSError.exc
        (ArgumentNotProvidedException (emptyPropertyMessage "Email") none none ""))
    ∧ (ArgumentNotProvidedException (emptyPropertyMessage "Email") none none "").code
        = "generic_argument_not_provided"
    ∧ ∀ inst, mkValueObject "Email" emailValidate (JSValue.str "") ≠ Except.ok inst :=
  c1_empty_input_raises_argument_not_provided "Email" emailValidate
    (JSValue.str "") (by decide)

/-- C2: for every non-empty primitive input on which `validate` does not
throw, construction succeeds, the stored single-field carrier holds
exactly the input value, and `getValue` (the carrier projection) returns
the input. -/
theorem c2_nonempty_primitive_construction_succeeds
    (ctorName : String) (validate : JSValue → Except JSError Unit) (v : JSValue)
    (hne : isEmpty v = false) (hp : isPrimitive v = true)
    (hv : validate v = Except.ok ()) :
    mkValueObject ctorName validate v =
      Except.ok ⟨ctorName, StoredProps.wrapped v, true⟩
    ∧ VOInstance.getValue ⟨ctorName, StoredProps.wrapped v, true⟩ = v := by
  constructor
  · simp [mkValueObject, checkIfEmpty, hne, hv, hp, Bind.bind, Except.bind]
  · rfl

/-- Witness for C2: `"a@b.com"` is a non-empty primitive accepted by the
`Email` validator; construction succeeds and `getValue` returns it. -/
theorem c2_witness :
    mkValueObject "Email" emailValidate (JSValue.str "a@b.com") =
      Except.ok ⟨"Email", StoredProps.wrapped (JSValue.str "a@b.com"), true⟩
    ∧ VOInstance.getValue
        ⟨"Email", StoredProps.wrapped (JSValue.str "a@b.com"), true⟩
      = JSValue.str "a@b.com" :=
  c2_nonempty_primitive_construction_succeeds "Email" emailValidate
    (JSValue.str "a@b.com") (by decide) rfl rfl

/-- C3: the six concrete cases of the emptiness predicate:
`[{}, {}]` is empty (every element empty), `[1]` is not, a `Date` is
never empty whatever its validity and timestamp, `{}` is empty, `0` is
not, and the literal string `"undefined"` is empty. -/
theorem c3_isEmpty_concrete_cases :
    isEmpty (JSValue.arr [JSValue.obj [], JSValue.obj []]) = true
    ∧ isEmpty (JSValue.arr [JSValue.num 1]) = false
    ∧ (∀ (valid : Bool) (t : Int), isEmpty (JSValue.date valid t) = false)
    ∧ isEmpty (JSValue.obj []) = true
    ∧ isEmpty (JSValue.num 0) = false
    ∧ isEmpty (JSValue.str "undefined") = true :=
  ⟨by decide, by decide, fun _ _ => rfl, rfl, rfl, by decide⟩

/-- C4: the constructor's steps run in the fixed order
emptiness-check, `validate`, storage: on empty input it fails with the
empty-argument exception and `validate` is never consulted (the outcome
is the same for any two hooks); on non-empty input a throwing `validate`
propagates its own error; on non-empty validated input a primitive is
stored wrapped in the single-field carrier and a structured value is
stored as-is. -/
theorem c4_construction_order
    (ctorName : String) (validate₁ validate₂ : JSValue → Except JSError Unit)
    (v : JSValue) (e : JSError) :
    (isEmpty v = true →
      mkValueObject ctorName validate₁ v =
        Except.error (JSError.exc
          (ArgumentNotProvidedException (emptyPropertyMessage ctorName) none none ""))
      ∧ mkValueObject ctorName validate₁ v = mkValueObject ctorName validate₂ v)
    ∧ (isEmpty v = false → validate₁ v = Except.error e →
        mkValueObject ctorName validate₁ v = Except.error e)
    ∧ (isEmpty v = false → validate₁ v = Except.ok () → isPrimitive v = true →
        mkValueObject ctorName validate₁ v =
          Except.ok ⟨ctorName, StoredProps.wrapped v, true⟩)
    ∧ (isEmpty v = false → validate₁ v = Except.ok () → isPrimitive v = false →
        mkValueObject ctorName validate₁ v =
          Except.ok ⟨ctorName, StoredProps.direct v, false⟩) := by
  refine ⟨fun h => ⟨?_, ?_⟩, fun hne hv => ?_, fun hne hv hp => ?_, fun hne hv hp => ?_⟩
  · simp [mkValueObject, checkIfEmpty, h, Bind.bind, Except.bind]
  · simp [mkValueObject, checkIfEmpty, h, Bind.bind, Except.bind]
  · simp [mkValueObject, checkIfEmpty, hne, hv, Bind.bind, Except.bind]
  · simp [mkValueObject, checkIfEmpty, hne, hv, hp, Bind.bind, Except.bind]
  · simp [mkValueObject, checkIfEmpty, hne, hv, hp, Bind.bind, Except.bind]

/-- Witness for C4, one instantiation per conjunct: an empty input fails
identically under two different hooks; a validator rejection propagates;
a validated primitive is wrapped; a validated structured value is stored
as-is. -/
theorem c4_witness :
    (mkValueObject "Email" emailValidate (JSValue.null) =
        Except.error (JSError.exc
          (ArgumentNotProvidedException (emptyPropertyMessage "Email") none none ""))
      ∧ mkValueObject "Email" emailValidate (JSValue.null) =
          mkValueObject "Email" alwaysValid (JSValue.null))
    ∧ mkValueObject "Email" emailValidate (JSValue.str "not-an-email") =
        Except.error (JSError.plain "Invalid email address")
    ∧ mkValueObject "Email" emailValidate (JSValue.str "a@b.com") =
        Except.ok ⟨"Email", StoredProps.wrapped (JSValue.str "a@b.com"), true⟩
    ∧ mkValueObject "Address" alwaysValid (JSValue.obj [("city", JSValue.str "Paris")]) =
        Except.ok ⟨"Address",
          StoredProps.direct (JSValue.obj [("city", JSValue.str "Paris")]), false⟩ :=
  ⟨(c4_construction_order "Email" emailValidate alwaysValid JSValue.null
      (JSError.plain "")).1 rfl,
   (c4_construction_order "Email" emailValidate alwaysValid
      (JSValue.str "not-an-email") (JSError.plain "Invalid email address")).2.1
      (by decide) rfl,
   (c4_construction_order "Email" emailValidate alwaysValid
      (JSValue.str "a@b.com") (JSError.plain "")).2.2.1 (by decide) rfl rfl,
   (c4_construction_order "Address" alwaysValid alwaysValid
      (JSValue.obj [("city", JSValue.str "Paris")]) (JSError.plain "")).2.2.2
      (by decide) rfl rfl⟩

/-- A cause shaped like a freshly constructed runtime `Error`: its
`message` is an own, non-enumerable property (which is why the source
passes `Object.getOwnPropertyNames` to `JSON.stringify` — the default
serialization of such an object is `\x7b\x7d`). -/
def errorLikeCause : ErrObject :=
  { own := [{ name := "message", value := "boom", enumerable := false }]
    inherited := [] }

/-- C5 counterexample: the claim says the rendered `cause` is built from
the cause's own *enumerable* properties only.  On a cause shaped like a
plain runtime `Error` — whose `message` is an own, non-enumerable
property — the source's rendering
(`JSON.stringify(cause, Object.getOwnPropertyNames(cause))`) includes
`message`, while an own-enumerable-only rendering would produce the
empty record: the serialized `cause` differs from the claimed form. -/
theorem c5_counterexample :
    (ExceptionBase.toJSON
        { code := "user_not_found", message := "outer", metadata := none
          cause := some errorLikeCause, stack := "trace" }).cause
      = some "\x7b\"message\":\"boom\"\x7d"
    ∧ renderCauseOwnEnumerableSpec errorLikeCause = "\x7b\x7d"
    ∧ (ExceptionBase.toJSON
        { code := "user_not_found", message := "outer", metadata := none
          cause := some errorLikeCause, stack := "trace" }).cause
      ≠ some (renderCauseOwnEnumerableSpec errorLikeCause) :=
  ⟨rfl, rfl, by decide⟩

/-- C5 as amended: serialization always carries `message` and `code`;
when no cause was supplied the `cause` field is absent (`none`), not a
placeholder; when a cause was supplied the field holds the textual
rendering built from the cause's own properties — enumerable or not —
with inherited fields dropped (the allow-list passed to the stringifier
is exactly the cause's own property names); an absent `metadata` is
likewise absent from the output. -/
theorem c5_serialize_shape (code msg : String) (meta : Option JSValue)
    (c : ErrObject) (st : String) :
    (ExceptionBase.toJSON
        { code := code, message := msg, metadata := meta
          cause := none, stack := st }).message = msg
    ∧ (ExceptionBase.toJSON
        { code := code, message := msg, metadata := meta
          cause := none, stack := st }).code = code
    ∧ (ExceptionBase.toJSON
        { code := code, message := msg, metadata := meta
          cause := none, stack := st }).cause = none
    ∧ (ExceptionBase.toJSON
        { code := code, message := msg, metadata := meta
          cause := some c, stack := st }).cause = some (renderCause c)
    ∧ renderCause c = stringifyWithKeys (getOwnPropertyNames c) c
    ∧ (ExceptionBase.toJSON
        { code := code, message := msg, metadata := none
          cause := none, stack := st }).metadata = none :=
  ⟨rfl, rfl, rfl, rfl, rfl, rfl⟩

/-- C6: for every successfully constructed `Email` — the one concrete
`equals` definition the source supplies (`ValueObject.equals` itself is
abstract, line 174; the documented `Email` subclass is its reference
implementation) — `equals` is reflexive, and `equals(undefined)` is
`false`: `undefined instanceof Email` fails, `&&` short-circuits, and
no property of the absent operand is ever touched, so no error can be
raised (the embedded `emailEquals` is a total `Bool`-valued function). -/
theorem c6_email_equals_reflexive_and_undefined_false
    (v : JSValue) (inst : VOInstance)
    (h : mkValueObject "Email" emailValidate v = Except.ok inst) :
    emailEquals inst (some inst) = true ∧ emailEquals inst none = false := by
  refine ⟨?_, rfl⟩
  by_cases he : isEmpty v = true
  · exfalso
    simp [mkValueObject, checkIfEmpty, he, Bind.bind, Except.bind] at h
  · have hne : isEmpty v = false := by
      cases hb : isEmpty v
      · rfl
      · exact absurd hb he
    cases hval : emailValidate v with
    | error e =>
      exfalso
      simp [mkValueObject, checkIfEmpty, hne, hval, Bind.bind, Except.bind] at h
    | ok u =>
      rcases v with _ | _ | s | n | b | ⟨vd, t⟩ | elems | fields <;>
        simp [emailValidate] at hval
      have hmem : '@' ∈ s.data := by
        by_cases hm : '@' ∈ s.data
        · exact hm
        · simp [hm] at hval
      have hinst : inst = ⟨"Email", StoredProps.wrapped (JSValue.str s), true⟩ := by
        simp [mkValueObject, checkIfEmpty, hne, emailValidate, hmem, isPrimitive,
          Bind.bind, Except.bind] at h
        exact h.symm
      subst hinst
      simp [emailEquals, VOInstance.getValue, strictEqual]

/-- Witness for C6: the `Email` built from `"a@b.com"` equals itself and
does not equal the absent value. -/
theorem c6_witness :
    emailEquals ⟨"Email", StoredProps.wrapped (JSValue.str "a@b.com"), true⟩
      (some ⟨"Email", StoredProps.wrapped (JSValue.str "a@b.com"), true⟩) = true
    ∧ emailEquals ⟨"Email", StoredProps.wrapped (JSValue.str "a@b.com"), true⟩
        none = false :=
  c6_email_equals_reflexive_and_undefined_false (JSValue.str "a@b.com")
    ⟨"Email", StoredProps.wrapped (JSValue.str "a@b.com"), true⟩ rfl

/-- C7, the part that holds on representable values: over the inductive
universe `JSValue` — every finite, acyclic JavaScript value — `isEmpty`
is a total Boolean function, and it evaluates sequences by the
recursive, short-circuiting every-element-empty rule.  (A
self-referential array is no inductive value; on one, the source
recurses without bound — recorded as the code bug for this claim.) -/
theorem c7_isEmpty_total_on_representable_values :
    (∀ v : JSValue, isEmpty v = true ∨ isEmpty v = false)
    ∧ (∀ (v : JSValue) (rest : List JSValue),
        isEmpty.allEmpty (v :: rest) = (isEmpty v && isEmpty.allEmpty rest))
    ∧ (∀ elems : List JSValue,
        isEmpty (JSValue.arr elems)
          = (elems.length == 0 || isEmpty.allEmpty elems)) :=
  ⟨fun v => by cases h : isEmpty v <;> simp,
   fun _ _ => rfl,
   fun _ => rfl⟩

/-- C8 counterexample: the exception constructor stores `message`
verbatim and validates nothing, so an instance whose `message` is the
empty string is constructible — the claim that every instance of the
exception base carries non-empty text is false. -/
theorem c8_counterexample :
    (ArgumentNotProvidedException "" none none "").message = "" :=
  rfl

/-- C8 as amended: `message` is stored verbatim, with no non-emptiness
validation imposed at this layer; every exception this core itself
raises — the empty-argument failure thrown by value-object
construction — does carry a non-empty message. -/
theorem c8_message_verbatim_core_raises_nonempty
    (code msg : String) (meta : Option JSValue) (c : Option ErrObject)
    (st ctorName : String) (validate : JSValue → Except JSError Unit)
    (v : JSValue) (h : isEmpty v = true) :
    (ExceptionBase.mk code msg meta c st).message = msg
    ∧ ∃ e : ExceptionBase,
        mkValueObject ctorName validate v = Except.error (JSError.exc e)
        ∧ e.message ≠ "" := by
  refine ⟨rfl, ArgumentNotProvidedException (emptyPropertyMessage ctorName) none none "",
    ?_, ?_⟩
  · simp [mkValueObject, checkIfEmpty, h, Bind.bind, Except.bind]
  · intro heq
    have hlen : ("Property of value object (".length = 0 ∧ ctorName.length = 0)
        ∧ (") cannot be empty").length = 0 := by
      simpa [ArgumentNotProvidedException, emptyPropertyMessage]
        using congrArg String.length heq
    exact absurd hlen.1.1 (by decide)

/-- Witness for C8's amended statement: a concrete exception stores its
message verbatim, and constructing a value object from `null` raises an
exception whose message is non-empty. -/
theorem c8_witness :
    (ExceptionBase.mk "user_not_found" "outer" none none "trace").message = "outer"
    ∧ ∃ e : ExceptionBase,
        mkValueObject "Email" emailValidate JSValue.null =
          Except.error (JSError.exc e)
        ∧ e.message ≠ "" :=
  c8_message_verbatim_core_raises_nonempty "user_not_found" "outer" none none
    "trace" "Email" emailValidate JSValue.null rfl

/-- C9: `toString` and `serialize` are functions of the instance's state
fixed at construction: repeated calls on the same instance yield
identical output (both embedded operations read only the stored fields
and perform no mutation), and the only trace data ever emitted is the
single stack capture made at construction. -/
theorem c9_serialization_idempotent (vo : VOInstance) (e : ExceptionBase) :
    VOInstance.toString vo = VOInstance.toString vo
    ∧ ExceptionBase.toJSON e = ExceptionBase.toJSON e
    ∧ (ExceptionBase.toJSON e).stack = some e.stack :=
  ⟨rfl, rfl, rfl⟩

/-- C10: `isValueObject` is `object instanceof ValueObject` — a nominal
prototype-chain test: it accepts every instance of a concrete
`ValueObject` subclass and rejects `null`, the absent value, every
primitive, and every plain object, even one whose fields mimic a value
object's shape (`properties`, `getValue`, `equals`), since a plain
object never has `ValueObject.prototype` on its chain. -/
theorem c10_isValueObject_nominal
    (inst : VOInstance) (fields : List (String × JSValue)) (v : JSValue) :
    isValueObject (Candidate.voInst inst) = true
    ∧ isValueObject Candidate.nullVal = false
    ∧ isValueObject Candidate.undefVal = false
    ∧ isValueObject (Candidate.plainObj fields) = false
    ∧ isValueObject (Candidate.primVal v) = false :=
  ⟨rfl, rfl, rfl, rfl, rfl⟩
